import Mathlib

/-!
Verification of the DeepShield frontend's client session and workflow
orchestration layer (src/deepshield/frontend/js and src/deepshield/frontend/script.js),
shallowly embedded in Lean 4.

Conventions of the embedding:
* `localStorage` / `sessionStorage` are modelled as a record of optional
  slots, one per string key the source uses.
* The JWT credential is an opaque string in the source; the only thing the
  code does with it is `JSON.parse(atob(token.split('.')[1]))` followed by
  a numeric comparison on `payload.exp`.  We therefore abstract a stored
  token to the outcome of that parse: it either throws (`fail`) or yields a
  payload whose `exp` claim is a number or is absent/non-numeric.
* JavaScript truthiness (`!email`, `this.token && ...`) is modelled with
  `Option` / emptiness checks as noted at each definition.
* A `fetch` round trip is modelled by a `FetchOutcome` oracle parameter:
  the response (status and parsed body), or a rejection of `fetch` itself,
  or a throw while reading the body.
-/

namespace DeepShield

/-- Outcome of `JSON.parse(atob(this.token.split('.')[1]))` on a stored
credential (config.js 124): the parse throws, or yields a payload whose
`exp` claim is a number, or yields a payload with no numeric `exp`
(in JS, `undefined < now` evaluates to `false`). -/
inductive TokenParse where
  | fail : TokenParse
  | payload (exp : Option Int) : TokenParse
deriving Repr, DecidableEq

/-- Stored user record (`localStorage[USER_KEY]`): `JSON.parse(userData)`
either throws or yields the user object (identified by its email). -/
inductive UserData where
  | fail : UserData
  | ok (email : String) : UserData
deriving Repr, DecidableEq

namespace AuthManager

/-- `AuthManager.isTokenExpired` (config.js 120-130): `true` when no token
is held; on a parse failure the `catch` returns `true`; otherwise the
result of the JS comparison `payload.exp < now` (which is `false` when
`exp` is absent, since `undefined < now` is `false`). -/
def isTokenExpired : Option TokenParse → Int → Bool
  | none, _ => true
  | some .fail, _ => true
  | some (.payload none), _ => false
  | some (.payload (some e)), now => decide (e < now)

/-- In-memory fields of the `AuthManager` singleton: `this.token` and
`this.currentUser` (config.js 76-77).  `none` models `null`/absent
(a falsy value). -/
structure Mem where
  token : Option TokenParse
  currentUser : Option String
deriving Repr, DecidableEq

/-- `AuthManager.isAuthenticated` (config.js 268-270):
`this.token && this.currentUser && !this.isTokenExpired()`. -/
def isAuthenticated (mem : Mem) (now : Int) : Bool :=
  mem.token.isSome && mem.currentUser.isSome && !(isTokenExpired mem.token now)

end AuthManager

/-- Modelled from the spec (claim C2's wording, for comparison with the
code): valid iff a Session is present (token and user) AND the credential
parses to a payload with an expiry claim that is strictly greater than the
current time; an absent or unparseable expiry is invalid. -/
def specIsValid (mem : AuthManager.Mem) (now : Int) : Bool :=
  match mem.token, mem.currentUser with
  | some (.payload (some e)), some _ => decide (now < e)
  | _, _ => false

/-- The validity predicate the code actually computes, stated shape-wise:
token and user present, the credential parses, and if an `exp` claim is
present then `now ≤ exp` (an absent `exp` claim is accepted as valid, and
`exp = now` counts as valid). -/
def codeIsValid (mem : AuthManager.Mem) (now : Int) : Bool :=
  match mem.token, mem.currentUser with
  | some .fail, _ => false
  | some (.payload none), some _ => true
  | some (.payload (some e)), some _ => decide (now ≤ e)
  | _, _ => false

/-- `APIError` (api.js 181-188): `message`, HTTP `status` (0 for
non-HTTP failures), and the attached `data` (server payload or the
underlying thrown error, abstracted to an optional string). -/
structure APIError where
  message : String
  status : Nat
  data : Option String := none
deriving Repr, DecidableEq

namespace APIError

/-- `APIError.isNetworkError` (api.js 189-191): `this.status === 0`. -/
def isNetworkError (e : APIError) : Bool := e.status == 0

/-- `APIError.isAuthError` (api.js 193-195): status 401 or 403. -/
def isAuthError (e : APIError) : Bool := e.status == 401 || e.status == 403

/-- `APIError.isValidationError` (api.js 197-199): status 400 or 422. -/
def isValidationError (e : APIError) : Bool := e.status == 400 || e.status == 422

/-- `APIError.isRateLimitError` (api.js 201-203): status 429. -/
def isRateLimitError (e : APIError) : Bool := e.status == 429

/-- `APIError.isServerError` (api.js 205-207): `this.status >= 500`. -/
def isServerError (e : APIError) : Bool := decide (500 ≤ e.status)

end APIError

/-- The coarse error kinds of the spec's classification table. -/
inductive ErrorKind where
  | network | authentication | validation | rateLimited | serverFault | unknown
deriving Repr, DecidableEq

/-- Modelled from the spec (section 4.2 rule table): HTTP 0/unreachable →
Network; 401/403 → Authentication; 400/422 → Validation; 429 →
RateLimited; ≥ 500 → ServerFault; anything else → Unknown. -/
def specClassify (s : Nat) : ErrorKind :=
  if s = 0 then .network
  else if s = 401 ∨ s = 403 then .authentication
  else if s = 400 ∨ s = 422 then .validation
  else if s = 429 then .rateLimited
  else if 500 ≤ s then .serverFault
  else .unknown

/-- The kind an `APIError` reports through its predicates (api.js
189-207), read off in order; the classification theorem shows the
predicates are mutually exclusive, so the order is immaterial. -/
def codeClassify (e : APIError) : ErrorKind :=
  if e.isNetworkError then .network
  else if e.isAuthError then .authentication
  else if e.isValidationError then .validation
  else if e.isRateLimitError then .rateLimited
  else if e.isServerError then .serverFault
  else .unknown

/-- How many of the five named classification predicates hold of an error. -/
def predCount (e : APIError) : Nat :=
  (if e.isNetworkError then 1 else 0) + (if e.isAuthError then 1 else 0) +
  (if e.isValidationError then 1 else 0) + (if e.isRateLimitError then 1 else 0) +
  (if e.isServerError then 1 else 0)

/-- JSON values, for the records the app serializes with `JSON.stringify`
and reads back with `JSON.parse` (detection result, complaint draft). -/
inductive Json where
  | null : Json
  | bool (b : Bool) : Json
  | num (n : Int) : Json
  | str (s : String) : Json
  | arr (xs : List Json) : Json
  | obj (fields : List (String × Json)) : Json
deriving Repr, BEq

/-- The browser storage slots the source writes, one per string key:
`deepshield_token` (TOKEN_KEY), `deepshield_user` (USER_KEY),
`otp_email` (sessionStorage), `detection_result`, `complaint_draft`.
`none` models an absent key. -/
structure Storage where
  token : Option TokenParse
  user : Option UserData
  otpEmail : Option String
  detectionResult : Option Json
  complaintDraft : Option Json
deriving Repr

/-- Combined state of the `AuthManager` singleton: its in-memory fields
plus the shared browser storage. -/
structure AuthState where
  mem : AuthManager.Mem
  store : Storage
deriving Repr

namespace AuthManager

/-- `AuthManager.logout` (config.js 234-263): nulls `this.token` and
`this.currentUser`, removes TOKEN_KEY, USER_KEY and `otp_email` from
storage (and `api.clearAuth`, api.js 120-124, removes the same two keys
again), clears the refresh timer, updates the UI and dispatches
`user-logout`.  It does NOT touch `detection_result` or
`complaint_draft`. -/
def logout (st : AuthState) : AuthState :=
  { mem := { token := none, currentUser := none }
    store := { st.store with token := none, user := none, otpEmail := none } }

/-- `AuthManager.setAuthData` (config.js 210-229): sets the in-memory
token and user and writes both TOKEN_KEY and USER_KEY to storage
(`api.setToken`, api.js 108-115, re-writes TOKEN_KEY with the same
value). -/
def setAuthData (t : TokenParse) (u : String) (st : AuthState) : AuthState :=
  { mem := { token := some t, currentUser := some u }
    store := { st.store with token := some t, user := some (.ok u) } }

/-- `AuthManager.loadStoredAuth` (config.js 94-115): if both TOKEN_KEY and
USER_KEY are present, set the in-memory fields from them; a `JSON.parse`
failure on the user record, or an expired token, triggers `logout()`;
if either key is missing nothing happens at all (any pre-existing state,
including a lone key, is left as is). -/
def loadStoredAuth (st : AuthState) (now : Int) : AuthState :=
  match st.store.token, st.store.user with
  | some t, some ud =>
    match ud with
    | .fail => logout { st with mem := { token := some t, currentUser := st.mem.currentUser } }
    | .ok u =>
      if isTokenExpired (some t) now then
        logout { st with mem := { token := some t, currentUser := some u } }
      else
        { st with mem := { token := some t, currentUser := some u } }
  | _, _ => st

/-- The `/auth/verify-otp` response fields `AuthManager.verifyOTP` looks
at (config.js 191): `access_token` (abstracted to its parse outcome) and
`user` (its email); `none` models an absent/falsy field. -/
structure VerifyResponse where
  access_token : Option TokenParse
  user : Option String
deriving Repr

/-- Success continuation of `AuthManager.verifyOTP` (config.js 187-205):
if the response carries both `access_token` and `user`, store them via
`setAuthData` and remove the remembered `otp_email`; otherwise throw
`Invalid response format`. -/
def verifyOTPSuccess (resp : VerifyResponse) (st : AuthState) :
    Except String AuthState :=
  match resp.access_token, resp.user with
  | some t, some u =>
    let st1 := setAuthData t u st
    .ok { st1 with store := { st1.store with otpEmail := none } }
  | _, _ => .error "Invalid response format"

end AuthManager

/-- The legacy page script keeps its session under the single key
`deepshield_user` (script.js 126-130); its storage slots are that record,
the detection result and the complaint draft. -/
structure ScriptStorage where
  user : Option Json
  detectionResult : Option Json
  complaintDraft : Option Json
deriving Repr

/-- `logout` in the legacy script (script.js 901-906): removes
`deepshield_user`, `detection_result` and `complaint_draft`, then
redirects to the login page. -/
def scriptLogout (_st : ScriptStorage) : ScriptStorage :=
  { user := none, detectionResult := none, complaintDraft := none }

/-- Body of an HTTP response after `response.json()` / `response.text()`
(api.js 33-40), abstracted to the fields the error path reads:
`data.detail` and `data.message` (api.js 43).  `none` models an
absent-or-falsy field (JS `||` also skips an empty string). -/
structure Body where
  detail : Option String := none
  message : Option String := none
deriving Repr, DecidableEq

/-- Oracle for one `fetch` round trip inside `APIClient.request`:
the response arrived and its body was read (carrying the HTTP status and
the parsed body), or `fetch` itself rejected (network failure), or
reading the body threw. -/
inductive FetchOutcome where
  | response (status : Nat) (body : Body) : FetchOutcome
  | fetchFail : FetchOutcome
  | bodyFail : FetchOutcome
deriving Repr, DecidableEq

namespace APIClient

/-- Observable behaviour of one `APIClient.request` call: whether `fetch`
was reached at all, the endpoint, the `Authorization` header attached,
and the settled value — success data or the thrown `APIError` (the only
exception type `request` lets escape, api.js 47-55). -/
structure RequestTrace where
  attempted : Bool
  endpoint : String
  authHeader : Option String
  result : Except APIError Body
deriving Repr

/-- The message of the error thrown on a non-OK response
(api.js 43): `data.detail || data.message || 'Request failed'`. -/
def errMessage (b : Body) : String :=
  (b.detail.getD (b.message.getD "Request failed"))

/-- `CONFIG.ERRORS.NETWORK` (config.js 49). -/
def networkMessage : String :=
  "Network error. Please check your connection and try again."

/-- `APIClient.request` (api.js 14-56), for the callers in this repo
(none of which pre-set an `Authorization` header).  It builds the config,
attaches `Bearer <token>` when `this.token` is truthy, and then always
calls `fetch` — there is no session check and no pre-flight failure of
any kind before the network call.  A non-OK response throws an `APIError`
carrying the response status; a rejection of `fetch` or of the body read
is caught and re-thrown as `APIError(CONFIG.ERRORS.NETWORK, 0, error)`. -/
def request (token : Option String) (endpoint : String)
    (outcome : FetchOutcome) : RequestTrace :=
  { attempted := true
    endpoint := endpoint
    authHeader :=
      match token with
      | some t => if t.isEmpty then none else some ("Bearer " ++ t)
      | none => none
    result :=
      match outcome with
      | .response s b =>
        if 200 ≤ s ∧ s < 300 then .ok b
        else .error { message := errMessage b, status := s }
      | .fetchFail => .error { message := networkMessage, status := 0 }
      | .bodyFail => .error { message := networkMessage, status := 0 } }

/-- `APIClient.submitComplaint` (api.js 148-156): builds a `FormData`
from the non-null complaint fields and issues
`postForm('/complaints/submit', formData)`, which is `request` with
method POST and empty extra headers (api.js 80-86). -/
def submitComplaint (token : Option String) (outcome : FetchOutcome) :
    RequestTrace :=
  request token "/complaints/submit" outcome

/-- `APIClient.detectDeepfake` (api.js 141-145):
`postForm('/media/detect', formData)`. -/
def detectDeepfake (token : Option String) (outcome : FetchOutcome) :
    RequestTrace :=
  request token "/media/detect" outcome

/-- `APIClient.getDashboard` (api.js 159-161): `get('/dashboard')`. -/
def getDashboard (token : Option String) (outcome : FetchOutcome) :
    RequestTrace :=
  request token "/dashboard" outcome

/-- Holds of the outcomes in which no HTTP response was classified:
`fetch` rejected or reading the body threw. -/
def nonHTTPFailure : FetchOutcome → Bool
  | .fetchFail => true
  | .bodyFail => true
  | .response _ _ => false

end APIClient

/-- The record `analyzeMedia` stores for the results page (app.js
243-251 and script.js 281-289): the detection response
(`detection_result`, `confidence_score`), the original file descriptor,
and `fileUrl`, the object-URL string from `URL.createObjectURL` — the
transient file handle, persisted as plain text whose underlying blob
does not survive a reload. -/
structure StoredResult where
  detection_result : String
  confidence_score : Int
  originalFileName : String
  originalFileSize : Int
  originalFileType : String
  fileUrl : String
deriving Repr, DecidableEq

/-- `JSON.stringify` of the stored record (app.js 589). -/
def StoredResult.toJson (r : StoredResult) : Json :=
  .obj [("detection_result", .str r.detection_result),
        ("confidence_score", .num r.confidence_score),
        ("originalFile", .obj [("name", .str r.originalFileName),
                               ("size", .num r.originalFileSize),
                               ("type", .str r.originalFileType)]),
        ("fileUrl", .str r.fileUrl)]

/-- `JSON.parse` of a stored record back into the shape the results page
reads (app.js 597); any other shape yields no record. -/
def StoredResult.fromJson : Json → Option StoredResult
  | .obj [("detection_result", .str d), ("confidence_score", .num c),
          ("originalFile", .obj [("name", .str n), ("size", .num sz),
                                 ("type", .str ty)]),
          ("fileUrl", .str u)] =>
    some { detection_result := d, confidence_score := c,
           originalFileName := n, originalFileSize := sz,
           originalFileType := ty, fileUrl := u }
  | _ => none

namespace DeepShieldApp

/-- `DeepShieldApp.storeResults` (app.js 588-590):
`localStorage.setItem('detection_result', JSON.stringify(results))` —
overwrites whatever was stored. -/
def storeResults (st : Storage) (r : StoredResult) : Storage :=
  { st with detectionResult := some r.toJson }

/-- `DeepShieldApp.getStoredResults` (app.js 595-598):
`stored ? JSON.parse(stored) : null` — a pure read of the slot. -/
def getStoredResults (st : Storage) : Option StoredResult :=
  st.detectionResult.bind StoredResult.fromJson

/-- `getStoredResults` paired with the storage it leaves behind:
`localStorage.getItem` does not mutate the store, so the consumed value
comes with an unchanged store (clearing is the separate
`localStorage.removeItem('detection_result')`, script.js 401). -/
def consumeStoredResults (st : Storage) : Option StoredResult × Storage :=
  (getStoredResults st, st)

end DeepShieldApp

/-- Where a user-triggered operation stopped: it was rejected by a local
check before any network I/O, or it reached the transport and issued a
network request. -/
inductive Flow where
  | rejectedLocally : Flow
  | networkRequest : Flow
deriving Repr, DecidableEq

namespace Utils

/-- A character of the regex class `[^\s@]` (utils `isValidEmail`):
neither whitespace nor `@`. -/
def isEmailChar (c : Char) : Bool := !c.isWhitespace && c != '@'

/-- Splits a list at the first element satisfying `p`, if any. -/
def splitAtFirst (p : Char → Bool) : List Char → Option (List Char × List Char)
  | [] => none
  | c :: cs =>
    if p c then some ([], cs)
    else (splitAtFirst p cs).map (fun lr => (c :: lr.1, lr.2))

/-- `Utils.isValidEmail` (utils source, `/^[^\s@]+@[^\s@]+\.[^\s@]+$/`):
the string is `L@R` where `L` is a nonempty run of `[^\s@]`, and `R` is a
nonempty run of `[^\s@]` containing a `.` that has at least one character
on each side (the class `[^\s@]` excludes `@`, so the separating `@` is
the first and only one). -/
def isValidEmail (s : String) : Bool :=
  match splitAtFirst (fun c => c == '@') s.toList with
  | none => false
  | some (locPart, domain) =>
    !locPart.isEmpty && locPart.all isEmailChar &&
    domain.all isEmailChar && (domain.drop 1).dropLast.contains '.'

end Utils

namespace DeepShieldApp

/-- `DeepShieldApp.sendOTP` (app.js 345-350): `!email ||
!Utils.isValidEmail(email)` shows an error toast and returns before
`auth.sendOTP` is ever called; otherwise the network call proceeds. -/
def sendOTP (email : String) : Flow :=
  if email.isEmpty || !Utils.isValidEmail email then .rejectedLocally
  else .networkRequest

/-- `DeepShieldApp.verifyOTP` (app.js 376-399): the six OTP inputs are
joined and `otp.length !== 6` shows an error toast and returns before
`auth.verifyOTP` is ever called. -/
def verifyOTP (otp : String) : Flow :=
  if otp.length ≠ 6 then .rejectedLocally else .networkRequest

/-- `DeepShieldApp.analyzeMedia` (app.js 213-241): returns before the
transport when no file is selected or when `auth.isAuthenticated()` is
false (toasting and scheduling a redirect to the login page); only then
does it call `api.detectDeepfake`. -/
def analyzeMedia (selectedFile : Option String) (mem : AuthManager.Mem)
    (now : Int) : Flow :=
  match selectedFile with
  | none => .rejectedLocally
  | some _ =>
    if AuthManager.isAuthenticated mem now then .networkRequest
    else .rejectedLocally

end DeepShieldApp

/-- `sendOTP` in the legacy script (script.js 53-58): only `!email` is
checked locally; any nonempty identifier — well-formed or not — goes to
the network. -/
def scriptSendOTP (email : String) : Flow :=
  if email.isEmpty then .rejectedLocally else .networkRequest

/-- `verifyOTP` in the legacy script (script.js 96-104): rejects locally
when the joined OTP's length is not 6, before any `fetch`. -/
def scriptVerifyOTP (otp : String) : Flow :=
  if otp.length ≠ 6 then .rejectedLocally else .networkRequest

/-- What the error-handling code does with one transport failure: how
many times `AuthManager.logout` is invoked and how many automatic
retries of the failed call are attempted. -/
structure FailureActions where
  logoutCalls : Nat
  retries : Nat
deriving Repr, DecidableEq

/-- Actions of two handlers run for the same failure, combined. -/
def FailureActions.add (a b : FailureActions) : FailureActions :=
  { logoutCalls := a.logoutCalls + b.logoutCalls,
    retries := a.retries + b.retries }

namespace AuthManager

/-- `AuthManager.handleAuthError` (config.js 337-343): calls `logout()`
exactly when the error is an `APIError` with `isAuthError()`; it never
retries the failed call. -/
def handleAuthError (e : APIError) : FailureActions :=
  if e.isAuthError then { logoutCalls := 1, retries := 0 }
  else { logoutCalls := 0, retries := 0 }

end AuthManager

/-- Every `CustomEvent` name the source ever dispatches: `user-login`
(config.js 228), `user-logout` (config.js 257), `form-success`
(ui.js 277) and `form-error` (ui.js 284).  In particular neither
`api-error` (listened for at app.js 550) nor `api-auth-error` (listened
for at config.js 162) is ever dispatched anywhere in the source. -/
def dispatchedEventNames : List String :=
  ["user-login", "user-logout", "form-success", "form-error"]

/-- Contribution of the global `api-error` listener (app.js 550-555,
which would call `auth.logout()` on an auth-classified error) to one
failure: it runs once per `api-error` dispatch, and there are none. -/
def apiErrorListenerActions (e : APIError) : FailureActions :=
  if dispatchedEventNames.contains "api-error" && e.isAuthError then
    { logoutCalls := 1, retries := 0 }
  else { logoutCalls := 0, retries := 0 }

/-- Contribution of the `api-auth-error` listener (config.js 162-164,
which would call `this.logout()`) to one failure: it runs once per
`api-auth-error` dispatch, and there are none. -/
def apiAuthErrorListenerActions (_e : APIError) : FailureActions :=
  if dispatchedEventNames.contains "api-auth-error" then
    { logoutCalls := 1, retries := 0 }
  else { logoutCalls := 0, retries := 0 }

/-- Combined contribution of both global listeners to one failure. -/
def listenerActions (e : APIError) : FailureActions :=
  (apiErrorListenerActions e).add (apiAuthErrorListenerActions e)

namespace DeepShieldApp

/-- The `catch` of `DeepShieldApp.verifyOTP` (app.js 395-398): logs and
toasts only — no logout, no retry. -/
def verifyOTPCatch (_e : APIError) : FailureActions :=
  { logoutCalls := 0, retries := 0 }

/-- The `catch` of `DeepShieldApp.sendOTP` (app.js 367-370): logs and
toasts only. -/
def sendOTPCatch (_e : APIError) : FailureActions :=
  { logoutCalls := 0, retries := 0 }

/-- The `catch` of `DeepShieldApp.loadDashboardData` (app.js 424-429):
logs and toasts only. -/
def loadDashboardDataCatch (_e : APIError) : FailureActions :=
  { logoutCalls := 0, retries := 0 }

/-- The `catch` of `DeepShieldApp.analyzeMedia` (app.js 259-261): logs
and toasts only. -/
def analyzeMediaCatch (_e : APIError) : FailureActions :=
  { logoutCalls := 0, retries := 0 }

end DeepShieldApp

/-- Everything that runs when `auth.verifyOTP` fails with `e`: the
`catch` in `AuthManager.verifyOTP` (config.js 201-204) calls
`handleAuthError(e)` and rethrows, the `catch` in
`DeepShieldApp.verifyOTP` then handles the rethrown error, and any
global listeners fire for events dispatched along the way. -/
def verifyOTPFailurePath (e : APIError) : FailureActions :=
  (AuthManager.handleAuthError e).add
    ((DeepShieldApp.verifyOTPCatch e).add (listenerActions e))

/-- Everything that runs when `auth.sendOTP` fails with `e`
(config.js 178-181 then app.js 367-370). -/
def sendOTPFailurePath (e : APIError) : FailureActions :=
  (AuthManager.handleAuthError e).add
    ((DeepShieldApp.sendOTPCatch e).add (listenerActions e))

/-- Everything that runs when `api.getDashboard()` fails with `e`: the
call goes straight from `APIClient` to `loadDashboardData`'s `catch` —
no `AuthManager` wrapper is involved — plus any global listeners. -/
def dashboardFailurePath (e : APIError) : FailureActions :=
  (DeepShieldApp.loadDashboardDataCatch e).add (listenerActions e)

/-- Everything that runs when `api.detectDeepfake` fails with `e`
(app.js 259-261 plus any global listeners). -/
def analyzeMediaFailurePath (e : APIError) : FailureActions :=
  (DeepShieldApp.analyzeMediaCatch e).add (listenerActions e)

/-- Modelled from the spec (claim C9's wording, for comparison with the
code): the persisted Session is all-or-nothing — either the credential,
the identity and a valid (parseable) expiry are all present, or the
Session is fully absent. -/
def specSessionAllOrNothing (s : Storage) : Bool :=
  match s.token, s.user with
  | some (.payload (some _)), some (.ok _) => true
  | none, none => true
  | _, _ => false

/-- The pairing discipline the code does maintain: the credential slot
and the identity slot of the persisted store are present together or
absent together. -/
def pairInv (s : Storage) : Bool := s.token.isSome == s.user.isSome

/-! ## Theorems -/

/-- C4: for every HTTP outcome, the error classification maps the status
to exactly the coarse kind of the spec's rule table (0 → Network, 401/403
→ Authentication, 400/422 → Validation, 429 → RateLimited, ≥ 500 →
ServerFault, anything else → Unknown), and on a status classified
Unknown none of the five named predicates holds while on every other
status exactly one does. -/
theorem classification_matches_rule_table :
    ∀ (s : Nat) (msg : String) (d : Option String),
      specClassify s = codeClassify { message := msg, status := s, data := d } ∧
      predCount { message := msg, status := s, data := d } =
        (if specClassify s = .unknown then 0 else 1) := by
  intro s msg d
  simp only [specClassify, codeClassify, predCount, APIError.isNetworkError,
    APIError.isAuthError, APIError.isValidationError, APIError.isRateLimitError,
    APIError.isServerError, beq_iff_eq, Bool.or_eq_true, decide_eq_true_eq]
  by_cases h0 : s = 0 <;> by_cases h401 : s = 401 <;> by_cases h403 : s = 403 <;>
    by_cases h400 : s = 400 <;> by_cases h422 : s = 422 <;>
    by_cases h429 : s = 429 <;> by_cases h500 : 500 ≤ s <;>
    simp_all

/-- C2 counterexample: the claim says `isValid()` is true iff a Session
is present with `expiresAt` strictly greater than the current time, and
that an absent expiry claim is treated as invalid.  The code disagrees
twice: a parseable credential with no `exp` claim counts as
authenticated (in JS `undefined < now` is `false`, so `isTokenExpired`
returns `false`), and at `exp = now` the session still counts as
authenticated although `exp > now` fails. -/
theorem isAuthenticated_refutes_strict_expiry :
    (AuthManager.isAuthenticated ⟨some (.payload none), some "u"⟩ 0 = true ∧
      specIsValid ⟨some (.payload none), some "u"⟩ 0 = false) ∧
    (AuthManager.isAuthenticated ⟨some (.payload (some 50)), some "u"⟩ 50 = true ∧
      specIsValid ⟨some (.payload (some 50)), some "u"⟩ 50 = false) := by
  refine ⟨⟨rfl, rfl⟩, ⟨by decide, by decide⟩⟩

/-- C2 (amended): `isAuthenticated` returns true iff the token and the
user are both present and the credential parses, and then: an absent
`exp` claim is accepted as valid (never-expiring), and a present `exp`
claim is valid exactly when `now ≤ exp` (so the boundary `exp = now`
counts as valid); an unparseable credential is always invalid. -/
theorem isAuthenticated_eq_codeIsValid :
    ∀ (mem : AuthManager.Mem) (now : Int),
      AuthManager.isAuthenticated mem now = codeIsValid mem now := by
  intro mem now
  obtain ⟨tok, usr⟩ := mem
  rcases tok with _ | tp
  · rcases usr <;> rfl
  · rcases tp with _ | exp
    · rcases usr <;> rfl
    · rcases exp with _ | e
      · rcases usr <;> rfl
      · rcases usr with _ | u
        · rfl
        · simp only [AuthManager.isAuthenticated, AuthManager.isTokenExpired,
            codeIsValid, Option.isSome_some, Bool.true_and]
          by_cases h : e < now
          · simp [h, not_le.mpr h]
          · simp [h, not_lt.mp h]

/-- C1 counterexample: submitting a complaint with no session (no stored
token) does NOT fail fast — `APIClient.request` has no session check, so
the network round trip is performed (`attempted = true`) and the failure
is the server's own 401 response, thrown as an ordinary `APIError` with
status 401, not a pre-flight `AuthenticationRequiredError` (no such
error exists in the source). -/
theorem submitComplaint_attempts_without_session :
    (APIClient.submitComplaint none (.response 401 {})).attempted = true ∧
    (APIClient.submitComplaint none (.response 401 {})).authHeader = none ∧
    (APIClient.submitComplaint none (.response 401 {})).result =
      .error { message := "Request failed", status := 401 } := by
  exact ⟨rfl, rfl, rfl⟩

/-- C1 (amended): the Transport Client never fails fast — every
`request` call reaches `fetch` regardless of session state (with no
token it simply attaches no `Authorization` header); the only pre-flight
session gate lives in the caller: `analyzeMedia` does not invoke the
transport when `isAuthenticated()` is false. -/
theorem request_always_attempted :
    (∀ (tok : Option String) (ep : String) (o : FetchOutcome),
      (APIClient.request tok ep o).attempted = true ∧
      (APIClient.request none ep o).authHeader = none) ∧
    (∀ (f : Option String) (mem : AuthManager.Mem) (now : Int),
      AuthManager.isAuthenticated mem now = false →
      DeepShieldApp.analyzeMedia f mem now ≠ Flow.networkRequest) := by
  refine ⟨fun tok ep o => ⟨rfl, rfl⟩, ?_⟩
  intro f mem now h
  cases f with
  | none => simp [DeepShieldApp.analyzeMedia]
  | some _ => simp [DeepShieldApp.analyzeMedia, h]

/-- C1 witness: a concrete unauthenticated context in which
`analyzeMedia` does not reach the transport. -/
theorem request_always_attempted_witness :
    AuthManager.isAuthenticated ⟨none, none⟩ 0 = false ∧
    DeepShieldApp.analyzeMedia (some "f") ⟨none, none⟩ 0 ≠ Flow.networkRequest :=
  ⟨rfl, request_always_attempted.2 (some "f") ⟨none, none⟩ 0 rfl⟩

/-- C3 counterexample: `AuthManager.logout` (config.js 234-263) removes
only the session keys; starting from a state holding a stored detection
result and a complaint draft, both survive the logout — the Workflow
Handoff Store and the draft are NOT cleared. -/
theorem logout_preserves_detection_result :
    (AuthManager.logout
        { mem := { token := some (.payload (some 100)), currentUser := some "u" },
          store := { token := some (.payload (some 100)), user := some (.ok "u"),
                     otpEmail := some "u", detectionResult := some (.str "r"),
                     complaintDraft := some (.str "d") } }).store.detectionResult
      = some (.str "r") ∧
    (AuthManager.logout
        { mem := { token := some (.payload (some 100)), currentUser := some "u" },
          store := { token := some (.payload (some 100)), user := some (.ok "u"),
                     otpEmail := some "u", detectionResult := some (.str "r"),
                     complaintDraft := some (.str "d") } }).store.complaintDraft
      = some (.str "d") := by
  exact ⟨rfl, rfl⟩

/-- C3 (amended): `AuthManager.logout` clears the in-memory and
persisted session (token, user, remembered OTP email), after which the
session is absent and `isAuthenticated` is false at every time — but it
leaves the stored detection result and the complaint draft untouched;
only the legacy script's standalone `logout` (script.js 901-906) also
clears the Workflow Handoff Store and the draft. -/
theorem logout_clears_session_only :
    ∀ st : AuthState,
      (AuthManager.logout st).mem.token = none ∧
      (AuthManager.logout st).mem.currentUser = none ∧
      (AuthManager.logout st).store.token = none ∧
      (AuthManager.logout st).store.user = none ∧
      (AuthManager.logout st).store.otpEmail = none ∧
      (∀ now, AuthManager.isAuthenticated (AuthManager.logout st).mem now = false) ∧
      (AuthManager.logout st).store.detectionResult = st.store.detectionResult ∧
      (AuthManager.logout st).store.complaintDraft = st.store.complaintDraft ∧
      (∀ s2 : ScriptStorage,
        (scriptLogout s2).user = none ∧
        (scriptLogout s2).detectionResult = none ∧
        (scriptLogout s2).complaintDraft = none) := by
  intro st
  exact ⟨rfl, rfl, rfl, rfl, rfl, fun _ => rfl, rfl, rfl, fun _ => ⟨rfl, rfl, rfl⟩⟩

/-- C5: publishing a result and then consuming it returns the stored
record intact — in particular equal on every field other than the
transient file handle (the handle itself is persisted as the plain
object-URL string) — and consuming does not clear the slot: the store is
unchanged and a second consume returns the same record. -/
theorem publish_consume_roundtrip :
    ∀ (st : Storage) (r : StoredResult),
      (DeepShieldApp.consumeStoredResults (DeepShieldApp.storeResults st r)).1
        = some r ∧
      (DeepShieldApp.consumeStoredResults (DeepShieldApp.storeResults st r)).2
        = DeepShieldApp.storeResults st r ∧
      (DeepShieldApp.consumeStoredResults
          (DeepShieldApp.consumeStoredResults (DeepShieldApp.storeResults st r)).2).1
        = some r := by
  intro st r
  exact ⟨rfl, rfl, rfl⟩

/-- C6 counterexample: a 401 failure of the dashboard fetch is
classified Authentication, yet `terminate()` is called zero times — the
`loadDashboardData` catch only toasts, and the `api-error` /
`api-auth-error` listeners never fire because no code dispatches those
events. -/
theorem dashboard_auth_failure_no_logout :
    APIError.isAuthError { message := "Unauthorized", status := 401 } = true ∧
    (dashboardFailurePath { message := "Unauthorized", status := 401 }).logoutCalls
      = 0 := by
  exact ⟨rfl, rfl⟩

/-- C6 (amended): on an Authentication-classified failure, `logout` is
called exactly once and no automatic retry happens only on the paths
wrapped by `AuthManager` (`sendOTP`, `verifyOTP`, via
`handleAuthError`); failures of the other calls (dashboard fetch, media
detection) call `logout` zero times, because their catches only toast
and the `api-error`/`api-auth-error` listeners are never triggered — no
path ever retries automatically. -/
theorem auth_failure_logout_counts :
    ∀ e : APIError, e.isAuthError = true →
      (verifyOTPFailurePath e).logoutCalls = 1 ∧
      (verifyOTPFailurePath e).retries = 0 ∧
      (sendOTPFailurePath e).logoutCalls = 1 ∧
      (sendOTPFailurePath e).retries = 0 ∧
      (dashboardFailurePath e).logoutCalls = 0 ∧
      (dashboardFailurePath e).retries = 0 ∧
      (analyzeMediaFailurePath e).logoutCalls = 0 ∧
      (analyzeMediaFailurePath e).retries = 0 := by
  intro e h
  simp [verifyOTPFailurePath, sendOTPFailurePath, dashboardFailurePath,
    analyzeMediaFailurePath, AuthManager.handleAuthError, h, listenerActions,
    apiErrorListenerActions, apiAuthErrorListenerActions, dispatchedEventNames,
    FailureActions.add, DeepShieldApp.verifyOTPCatch, DeepShieldApp.sendOTPCatch,
    DeepShieldApp.loadDashboardDataCatch, DeepShieldApp.analyzeMediaCatch]

/-- C6 witness: the counts at a concrete 401 failure. -/
theorem auth_failure_logout_counts_witness :
    (verifyOTPFailurePath { message := "Unauthorized", status := 401 }).logoutCalls
      = 1 ∧
    (verifyOTPFailurePath { message := "Unauthorized", status := 401 }).retries
      = 0 :=
  ⟨(auth_failure_logout_counts { message := "Unauthorized", status := 401 } rfl).1,
   (auth_failure_logout_counts { message := "Unauthorized", status := 401 } rfl).2.1⟩

/-- C7: a passcode whose length differs from the fixed 6 digits is
rejected by the local length check in both `DeepShieldApp.verifyOTP` and
the legacy script's `verifyOTP`, before `auth.verifyOTP`/`fetch` is ever
reached — no network call is made. -/
theorem short_otp_rejected_locally :
    ∀ otp : String, otp.length ≠ 6 →
      DeepShieldApp.verifyOTP otp = .rejectedLocally ∧
      scriptVerifyOTP otp = .rejectedLocally := by
  intro otp h
  exact ⟨by simp [DeepShieldApp.verifyOTP, h], by simp [scriptVerifyOTP, h]⟩

/-- C7 witness: a 3-digit passcode is rejected locally. -/
theorem short_otp_rejected_locally_witness :
    DeepShieldApp.verifyOTP "123" = .rejectedLocally ∧
    scriptVerifyOTP "123" = .rejectedLocally :=
  short_otp_rejected_locally "123" (by decide)

/-- Splitting at the first element satisfying `p` finds nothing when no
element satisfies `p`. -/
theorem splitAtFirst_eq_none (p : Char → Bool) (cs : List Char)
    (h : ∀ c ∈ cs, p c = false) : Utils.splitAtFirst p cs = none := by
  induction cs with
  | nil => rfl
  | cons c cs ih =>
    simp only [Utils.splitAtFirst, h c (List.mem_cons_self c cs)]
    simp [ih fun x hx => h x (List.mem_cons_of_mem c hx)]

/-- C8 counterexample: the legacy script's `sendOTP` (script.js 53-58)
checks only `!email`; for a nonempty identifier with no `@` it proceeds
to the network call instead of rejecting locally. -/
theorem script_sendOTP_attempts_malformed :
    (∀ c ∈ "not-an-email".toList, ¬ c = '@') ∧
    Utils.isValidEmail "not-an-email" = false ∧
    scriptSendOTP "not-an-email" = Flow.networkRequest := by
  exact ⟨by decide, rfl, rfl⟩

/-- C8 (amended): `DeepShieldApp.sendOTP` rejects every identifier that
is empty or lacks an `@` locally, without a network call (via
`Utils.isValidEmail`); the legacy script's `sendOTP` rejects only the
empty identifier locally and attempts the network call for every
nonempty identifier, malformed or not. -/
theorem sendOTP_local_validation :
    (∀ email : String, (∀ c ∈ email.toList, ¬ c = '@') →
      DeepShieldApp.sendOTP email = .rejectedLocally) ∧
    DeepShieldApp.sendOTP "" = .rejectedLocally ∧
    scriptSendOTP "" = .rejectedLocally ∧
    (∀ email : String, ¬ email.isEmpty = true →
      scriptSendOTP email = .networkRequest) := by
  refine ⟨?_, rfl, rfl, ?_⟩
  · intro email h
    have hv : Utils.isValidEmail email = false := by
      have hsplit : Utils.splitAtFirst (fun c => c == '@') email.toList = none :=
        splitAtFirst_eq_none _ _ (fun c hc => by
          simp only [beq_eq_false_iff_ne, ne_eq]
          exact h c hc)
      simp only [String.toList] at hsplit
      simp [Utils.isValidEmail, hsplit]
    simp [DeepShieldApp.sendOTP, hv]
  · intro email h
    simp [scriptSendOTP, h]

/-- C8 witness: concrete inputs for both halves — an `@`-less identifier
rejected by the app-level check, and the same identifier sent to the
network by the legacy script. -/
theorem sendOTP_local_validation_witness :
    DeepShieldApp.sendOTP "abc" = .rejectedLocally ∧
    scriptSendOTP "abc" = .networkRequest :=
  ⟨sendOTP_local_validation.1 "abc" (by decide),
   sendOTP_local_validation.2.2.2 "abc" (by decide)⟩

/-- C9 counterexample: a `completeChallenge` success whose access token
does not parse (`verifyOTP` never inspects the token it stores) leaves a
persisted state with credential and identity present but no valid
expiry: the spec's all-or-nothing trichotomy is violated, while the
token already counts as expired. -/
theorem verifyOTPSuccess_stores_unparseable_token :
    ((AuthManager.verifyOTPSuccess ⟨some .fail, some "u"⟩
        ⟨⟨none, none⟩, ⟨none, none, none, none, none⟩⟩).map
      (fun st => specSessionAllOrNothing st.store)) = .ok false ∧
    ((AuthManager.verifyOTPSuccess ⟨some .fail, some "u"⟩
        ⟨⟨none, none⟩, ⟨none, none, none, none, none⟩⟩).map
      (fun st => st.store.token.isSome && st.store.user.isSome)) = .ok true ∧
    ((AuthManager.verifyOTPSuccess ⟨some .fail, some "u"⟩
        ⟨⟨none, none⟩, ⟨none, none, none, none, none⟩⟩).map
      (fun st => AuthManager.isTokenExpired st.store.token 0)) = .ok true := by
  exact ⟨rfl, rfl, rfl⟩

/-- C9 (amended): the Session Manager's operations keep the persisted
credential and identity slots paired — present together or absent
together: `logout` and `setAuthData` establish the pairing outright,
`loadStoredAuth` preserves it, and a `verifyOTP` success stores both —
but a valid expiry is not part of the guarantee: the stored credential
may be unparseable or expiry-free, detected only by the later expiry
checks. -/
theorem session_slots_paired :
    ∀ (st : AuthState) (t : TokenParse) (u : String) (now : Int)
      (resp : AuthManager.VerifyResponse) (st' : AuthState),
      pairInv (AuthManager.logout st).store = true ∧
      pairInv (AuthManager.setAuthData t u st).store = true ∧
      (pairInv st.store = true →
        pairInv (AuthManager.loadStoredAuth st now).store = true) ∧
      (AuthManager.verifyOTPSuccess resp st = .ok st' →
        pairInv st'.store = true) := by
  intro st t u now resp st'
  refine ⟨rfl, rfl, ?_, ?_⟩
  · intro h
    unfold AuthManager.loadStoredAuth
    rcases htok : st.store.token with _ | t0 <;>
      rcases huser : st.store.user with _ | ud
    · exact h
    · exact h
    · exact h
    · rcases ud with _ | u0
      · rfl
      · by_cases hexp : AuthManager.isTokenExpired (some t0) now = true
        · simp [hexp, AuthManager.logout, pairInv]
        · simp only [Bool.not_eq_true] at hexp
          simp only [hexp, if_neg Bool.false_ne_true]
          exact h
  · intro h
    unfold AuthManager.verifyOTPSuccess at h
    rcases resp with ⟨_ | t1, _ | u1⟩ <;> simp at h
    subst h
    rfl

/-- C9 witness: the pairing at concrete states — the absent state
satisfies it and `loadStoredAuth` keeps it. -/
theorem session_slots_paired_witness :
    pairInv ({ token := none, user := none, otpEmail := none,
               detectionResult := none, complaintDraft := none } : Storage) = true ∧
    pairInv (AuthManager.loadStoredAuth
        ⟨⟨none, none⟩, ⟨none, none, none, none, none⟩⟩ 0).store = true :=
  ⟨rfl,
   (session_slots_paired ⟨⟨none, none⟩, ⟨none, none, none, none, none⟩⟩
      (.payload none) "u" 0 ⟨none, none⟩
      ⟨⟨none, none⟩, ⟨none, none, none, none, none⟩⟩).2.2.1 rfl⟩

/-- C10: every failure of `request` surfaces as the single normalized
`APIError` (the result type of the embedded `request` is
`Except APIError Body`, mirroring that the catch re-throws only
`APIError`s); in particular every non-HTTP failure — a rejected `fetch`
or a throw while reading the body — is wrapped as an `APIError` with
status 0 and `CONFIG.ERRORS.NETWORK` as message, which classifies as
Network. -/
theorem nonHTTP_failures_wrapped_as_network :
    ∀ (tok : Option String) (ep : String) (o : FetchOutcome),
      APIClient.nonHTTPFailure o = true →
      ∃ e : APIError, (APIClient.request tok ep o).result = .error e ∧
        e.status = 0 ∧ e.isNetworkError = true ∧
        e.message = APIClient.networkMessage := by
  intro tok ep o h
  cases o with
  | response s b => simp [APIClient.nonHTTPFailure] at h
  | fetchFail =>
    exact ⟨{ message := APIClient.networkMessage, status := 0 }, rfl, rfl, rfl, rfl⟩
  | bodyFail =>
    exact ⟨{ message := APIClient.networkMessage, status := 0 }, rfl, rfl, rfl, rfl⟩

/-- C10 witness: the wrapping at a concrete rejected `fetch`. -/
theorem nonHTTP_failures_wrapped_as_network_witness :
    ∃ e : APIError,
      (APIClient.request none "/dashboard" .fetchFail).result = .error e ∧
      e.status = 0 ∧ e.isNetworkError = true ∧
      e.message = APIClient.networkMessage :=
  nonHTTP_failures_wrapped_as_network none "/dashboard" .fetchFail rfl

end DeepShield
